import Mathlib

/-!
Verification of the contact-management core (`contact.py`, `phonebook.py`).

Python strings are sequences of Unicode code points; we embed them as Lean
`String` and implement the Python string operations the code uses
(`.strip()`, `.lower()`, substring `in`) directly on the underlying
character lists. Files are embedded as their parsed CSV content: a list of
rows, each row a list of field strings (`Option` for a missing file), since
Python's `csv` writer/reader round-trips a list of string fields exactly and
writes `None` as an empty column. Timestamps are an abstract `DateTime`
carrying a calendar date plus a time-of-day ordinal; "current time" is an
explicit parameter. Exceptions are embedded with `Except`.
-/

namespace Phonebook

/-- Python `str.strip()` on the character list: drop leading and trailing
whitespace characters. -/
def pyStripList (l : List Char) : List Char :=
  ((l.dropWhile Char.isWhitespace).reverse.dropWhile Char.isWhitespace).reverse

/-- Python `str.strip()`. -/
def pyStrip (s : String) : String :=
  ⟨pyStripList s.data⟩

/-- Python `str.lower()`. -/
def pyLower (s : String) : String :=
  ⟨s.data.map Char.toLower⟩

/-- Python `needle in haystack` on strings: contiguous substring test. -/
def pyIn (needle haystack : String) : Bool :=
  decide (needle.data <:+: haystack.data)

/-- Calendar date, as in Python's `datetime.date`. -/
structure Date where
  year : Nat
  month : Nat
  day : Nat
deriving DecidableEq, Repr

/-- Python compares `date` objects lexicographically by (year, month, day). -/
def Date.le (a b : Date) : Bool :=
  decide (a.year < b.year) ||
    (decide (a.year = b.year) &&
      (decide (a.month < b.month) ||
        (decide (a.month = b.month) && decide (a.day ≤ b.day))))

/-- Embedding of `datetime.datetime`: the calendar date (what `.date()`
returns) plus an abstract time-of-day ordinal. -/
structure DateTime where
  date : Date
  tod : Nat
deriving DecidableEq, Repr

/-- Embedding of `Contact` (`contact.py`): five fields plus the two
timestamps. `email` and `address` default to `None` in the source, so they
are `Option String`. -/
structure Contact where
  first_name : String
  last_name : String
  phone_number : String
  email : Option String
  address : Option String
  created_at : DateTime
  updated_at : DateTime
deriving DecidableEq, Repr

/-- Python truthiness of an optional string argument: `None` and `""` are
falsy, any other string is truthy (the `if field:` tests in
`Contact.update_contact`). -/
def truthyOpt : Option String → Bool
  | none => false
  | some s => decide (s ≠ "")

/-- Embedding of `Contact.update_contact` (`contact.py` lines 18-33): each
truthy argument overwrites its field; `updated_at` is set to the current
time unconditionally. `now` embeds `datetime.now()`. -/
def Contact.update_contact (c : Contact)
    (first_name last_name phone_number email address : Option String)
    (now : DateTime) : Contact :=
  { first_name := if truthyOpt first_name then first_name.getD c.first_name else c.first_name
    last_name := if truthyOpt last_name then last_name.getD c.last_name else c.last_name
    phone_number := if truthyOpt phone_number then phone_number.getD c.phone_number else c.phone_number
    email := if truthyOpt email then email else c.email
    address := if truthyOpt address then address else c.address
    created_at := c.created_at
    updated_at := now }

/-- Embedding of the `PhoneBook` state: the ordered contact list. The
`filename` attribute is represented by passing file contents explicitly to
the file operations. -/
structure PhoneBook where
  contacts : List Contact
deriving DecidableEq, Repr

/-- The fresh store built by `PhoneBook.__init__`. -/
def emptyPhoneBook : PhoneBook := ⟨[]⟩

/-- Embedding of `PhoneBook.validate_phone_number` (`phonebook.py` lines
23-30): `re.fullmatch` of the fixed pattern `\(\d{3}\) \d{3}-\d{4}` against
the whole string, i.e. the string is exactly `(`, three digits, `)`, space,
three digits, `-`, four digits. -/
def validate_phone_number (phone_number : String) : Bool :=
  match phone_number.data with
  | ['(', a, b, c, ')', ' ', d, e, f, '-', g, h, i, j] =>
    a.isDigit && b.isDigit && c.isDigit && d.isDigit && e.isDigit &&
      f.isDigit && g.isDigit && h.isDigit && i.isDigit && j.isDigit
  | _ => false

/-- Embedding of `PhoneBook.sort_contacts` (`phonebook.py` lines 47-56):
Python's stable `sorted` with key `first_name.lower()` or
`last_name.lower()`; any other key leaves the list unchanged. -/
def sort_contacts (pb : PhoneBook) (key : String) : PhoneBook :=
  if key = "first_name" then
    ⟨pb.contacts.mergeSort (fun c₁ c₂ => pyLower c₁.first_name ≤ pyLower c₂.first_name)⟩
  else if key = "last_name" then
    ⟨pb.contacts.mergeSort (fun c₁ c₂ => pyLower c₁.last_name ≤ pyLower c₂.last_name)⟩
  else
    pb

/-- Embedding of `PhoneBook.add_contact` (`phonebook.py` lines 32-45): an
invalid phone number aborts with the store untouched; otherwise the contact
is appended and the store re-sorted by last name. -/
def add_contact (pb : PhoneBook) (contact : Contact) : PhoneBook :=
  if validate_phone_number contact.phone_number then
    sort_contacts ⟨pb.contacts ++ [contact]⟩ "last_name"
  else
    pb

/-- The removal criterion of `PhoneBook.remove_contact_by_name`: both names
match after stripping and lowercasing (the arguments are stripped once at
entry, so `first` and `last` here stand for the already-stripped inputs). -/
def nameMatches (c : Contact) (first last : String) : Bool :=
  decide (pyLower (pyStrip c.first_name) = pyLower first) &&
    decide (pyLower (pyStrip c.last_name) = pyLower last)

/-- Embedding of `PhoneBook.remove_contact_by_name` (`phonebook.py` lines
58-70): strip both arguments, then keep exactly the contacts whose stripped
lowered first name differs or whose stripped lowered last name differs. -/
def remove_contact_by_name (pb : PhoneBook) (first_name last_name : String) : PhoneBook :=
  let first := pyStrip first_name
  let last := pyStrip last_name
  ⟨pb.contacts.filter fun c => !(nameMatches c first last)⟩

/-- Embedding of `PhoneBook.search_contact` (`phonebook.py` lines 131-143):
the query is stripped and lowercased, then a contact matches when that
normalized query occurs as a substring of its lowercased first name, its
lowercased last name, or its raw phone number. -/
def search_contact (pb : PhoneBook) (query : String) : List Contact :=
  let q := pyLower (pyStrip query)
  pb.contacts.filter fun c =>
    pyIn q (pyLower c.first_name) || pyIn q (pyLower c.last_name) || pyIn q c.phone_number

/-- Number of days in a month, as enforced by Python's `datetime.date`
constructor (leap years: divisible by 4 and not by 100, or by 400). -/
def daysInMonth (year month : Nat) : Nat :=
  if month = 2 then
    if year % 4 = 0 && (year % 100 ≠ 0 || year % 400 = 0) then 29 else 28
  else if month = 4 || month = 6 || month = 9 || month = 11 then 30
  else 31

/-- Split a character list at a separator character (used to decompose the
`YYYY-MM-DD` input at the literal dashes of the format string). -/
def splitOnChar (sep : Char) : List Char → List Char → List (List Char)
  | [], acc => [acc.reverse]
  | c :: rest, acc =>
    if c = sep then acc.reverse :: splitOnChar sep rest []
    else splitOnChar sep rest (c :: acc)

/-- Numeric value of a digit-character list. -/
def digitsToNat (l : List Char) : Nat :=
  l.foldl (fun n c => n * 10 + (c.toNat - 48)) 0

/-- Embedding of `datetime.strptime(s, "%Y-%m-%d").date()` as used by
`filter_by_date`: `%Y` consumes exactly four digits, `%m` one or two digits
valued 1..12, `%d` one or two digits valued 1..31, the whole string must be
consumed, and the `date` constructor additionally requires the year to be
at least 1 and the day to exist in the month. `none` embeds the raised
`ValueError`. -/
def parseDate (s : String) : Option Date :=
  match splitOnChar '-' s.data [] with
  | [y, m, d] =>
    if y.length = 4 && y.all Char.isDigit &&
        (m.length = 1 || m.length = 2) && m.all Char.isDigit &&
        (d.length = 1 || d.length = 2) && d.all Char.isDigit then
      let year := digitsToNat y
      let month := digitsToNat m
      let day := digitsToNat d
      if 1 ≤ year && 1 ≤ month && month ≤ 12 && 1 ≤ day &&
          day ≤ daysInMonth year month then
        some ⟨year, month, day⟩
      else none
    else none
  | _ => none

/-- Embedding of `PhoneBook.filter_by_date` (`phonebook.py` lines 145-169):
when both bounds parse, return the contacts whose `created_at` date lies in
the inclusive range, paired with `false` (no error); when either bound
fails to parse, the `ValueError` is caught and the result is the empty list
paired with `true` (the error message was reported). The store itself is
never modified. -/
def filter_by_date (pb : PhoneBook) (start_date end_date : String) :
    List Contact × Bool :=
  match parseDate start_date, parseDate end_date with
  | some s, some e =>
    (pb.contacts.filter fun c => Date.le s c.created_at.date && Date.le c.created_at.date e,
      false)
  | _, _ => ([], true)

/-- A parsed CSV row: the list of its field strings. -/
abbrev Row := List String

/-- Python exceptions that can escape the store in this model. -/
inductive PyError where
  | stopIteration
deriving DecidableEq, Repr

/-- The loop body of `PhoneBook.batch_delete` over the data rows (after the
header): rows with fewer than two fields are skipped; otherwise the two
names are stripped and `remove_contact_by_name` is invoked, and pairs whose
removal left the count unchanged are accumulated into the not-found
report. -/
def batch_delete_rows (pb : PhoneBook) (rows : List Row) : PhoneBook × List String :=
  rows.foldl
    (fun st row =>
      if 2 ≤ row.length then
        let first := pyStrip (row.getD 0 "")
        let last := pyStrip (row.getD 1 "")
        let pb' := remove_contact_by_name st.1 first last
        if pb'.contacts.length = st.1.contacts.length then
          (pb', st.2 ++ [first ++ " " ++ last])
        else (pb', st.2)
      else st)
    (pb, [])

/-- Embedding of `PhoneBook.batch_delete` (`phonebook.py` lines 72-99). A
missing file raises `FileNotFoundError`, which the handler catches: the
store is untouched and the error is reported. On an existing file,
`next(reader)` discards the header row — but on an existing file with zero
rows, `next(reader)` raises `StopIteration`, which the
`except FileNotFoundError` clause does not catch, so the exception escapes
to the caller. -/
def batch_delete (pb : PhoneBook) (file : Option (List Row)) :
    Except PyError (PhoneBook × List String) :=
  match file with
  | none => .ok (pb, [])
  | some [] => .error .stopIteration
  | some (_header :: rest) => .ok (batch_delete_rows pb rest)

/-- Result of `PhoneBook.batch_import`: the new store, the invalid-contact
report entries, and whether the file was found. The success message is
printed exactly when the file was found and the report is empty. -/
structure ImportResult where
  store : PhoneBook
  invalid : List String
  fileFound : Bool
deriving Repr

/-- The contact built from a CSV row by `batch_import` and
`load_from_file`: `Contact(row[0], row[1], row[2], email, address)` where
the optional columns become `None` when the row is too short. `now` embeds
the construction timestamp set by `Contact.__init__`. -/
def contactOfRow (row : Row) (now : DateTime) : Contact :=
  { first_name := row.getD 0 "", last_name := row.getD 1 ""
    phone_number := row.getD 2 ""
    email := if 3 < row.length then some (row.getD 3 "") else none
    address := if 4 < row.length then some (row.getD 4 "") else none
    created_at := now, updated_at := now }

/-- One iteration of the `batch_import` row loop: rows with fewer than
three fields are skipped outright; a row whose third field fails phone
validation is recorded in the invalid report and not added; otherwise the
row's contact is added via `add_contact`. -/
def import_step (now : DateTime) (st : PhoneBook × List String) (row : Row) :
    PhoneBook × List String :=
  if 3 ≤ row.length then
    if !(validate_phone_number (row.getD 2 "")) then
      (st.1, st.2 ++ [row.getD 0 "" ++ " " ++ row.getD 1 "" ++ ": " ++ row.getD 2 ""])
    else
      (add_contact st.1 (contactOfRow row now), st.2)
  else st

/-- The row loop of `PhoneBook.batch_import` over all rows of the file. -/
def batch_import_rows (pb : PhoneBook) (rows : List Row) (now : DateTime) :
    PhoneBook × List String :=
  rows.foldl (import_step now) (pb, [])

/-- Embedding of `PhoneBook.batch_import` (`phonebook.py` lines 101-129): a
missing file is caught and reported (store untouched); otherwise every row
is processed by the row loop and the reports are printed afterwards. -/
def batch_import (pb : PhoneBook) (file : Option (List Row)) (now : DateTime) :
    ImportResult :=
  match file with
  | none => ⟨pb, [], false⟩
  | some rows =>
    let (pb', invalid) := batch_import_rows pb rows now
    ⟨pb', invalid, true⟩

/-- Rendering of an optional field by `csv.writer`: `None` is written as an
empty column. -/
def optField : Option String → String
  | none => ""
  | some s => s

/-- Embedding of `PhoneBook.save_to_file` (`phonebook.py` lines 200-208):
every contact becomes one five-column row `first, last, phone, email,
address`. -/
def save_to_file (pb : PhoneBook) : List Row :=
  pb.contacts.map fun c =>
    [c.first_name, c.last_name, c.phone_number, optField c.email, optField c.address]

/-- Embedding of `PhoneBook.load_from_file` (`phonebook.py` lines 210-224)
on an existing file: each row with at least three fields yields a contact
(columns beyond the third become `some` even when empty) which is passed to
`add_contact`; shorter rows are skipped. A missing file would leave the
store unchanged; `now` embeds the load-time construction timestamp. -/
def load_from_file (pb : PhoneBook) (rows : List Row) (now : DateTime) : PhoneBook :=
  rows.foldl
    (fun st row =>
      if 3 ≤ row.length then add_contact st (contactOfRow row now) else st)
    pb

/-- Comparison of two contacts by lowercased last name, the order that
`add_contact` maintains. -/
def lastNameLe (c₁ c₂ : Contact) : Prop :=
  pyLower c₁.last_name ≤ pyLower c₂.last_name

/-- The removal criterion of `remove_contact_by_name` as a proposition:
first and last name match the arguments case-insensitively after trimming
whitespace on both sides. -/
def removalMatch (c : Contact) (first last : String) : Prop :=
  pyLower (pyStrip c.first_name) = pyLower (pyStrip first) ∧
    pyLower (pyStrip c.last_name) = pyLower (pyStrip last)

/-! Specification-side definitions, written from the claims' own words, to
be compared with the embeddings above. -/

/-- The phone format as the specification words it: the string is, in its
entirety, `(DDD) DDD-DDDD` where each `D` is one decimal digit. -/
def phone_format_spec (s : String) : Prop :=
  ∃ a b c d e f g h i j : Char,
    (a.isDigit ∧ b.isDigit ∧ c.isDigit ∧ d.isDigit ∧ e.isDigit ∧
      f.isDigit ∧ g.isDigit ∧ h.isDigit ∧ i.isDigit ∧ j.isDigit) ∧
    s = String.mk ['(', a, b, c, ')', ' ', d, e, f, '-', g, h, i, j]

/-- The search behaviour as the specification words it: a record matches
when the query (as given) is a case-insensitive substring of the first
name, a case-insensitive substring of the last name, or a substring of the
phone number. -/
def search_spec (pb : PhoneBook) (query : String) : List Contact :=
  pb.contacts.filter fun c =>
    pyIn (pyLower query) (pyLower c.first_name) ||
      pyIn (pyLower query) (pyLower c.last_name) || pyIn query c.phone_number

end Phonebook

/-! Theorems settling the claims. -/

namespace Phonebook

/-- C2 (code-level behaviour at the failing input): on an existing but
empty source file, `batch_delete` does not complete with a reported status
and is not a safe no-op; the `StopIteration` raised by `next(reader)`
escapes the store boundary, since only `FileNotFoundError` is caught. This
contradicts the claim that no exception propagates past the store boundary
for any public operation on any existing source file. -/
theorem batch_delete_empty_file_raises (pb : PhoneBook) :
    batch_delete pb (some []) = Except.error PyError.stopIteration := rfl

/-- C4: for every store state and every record whose phone number fails
`validate_phone_number`, `add_contact` leaves the store entirely unchanged
(same records in the same order); the record is not appended. -/
theorem add_contact_invalid_phone_noop (pb : PhoneBook) (c : Contact)
    (h : validate_phone_number c.phone_number = false) :
    add_contact pb c = pb := by
  simp [add_contact, h]

/-- C4 witness: a concrete invalid phone number is rejected and the add is
a no-op on the empty store. -/
theorem add_contact_invalid_phone_noop_witness :
    validate_phone_number ("123-456-7890") = false ∧
      add_contact (⟨[]⟩ : PhoneBook)
        { first_name := "John", last_name := "Doe", phone_number := "123-456-7890"
          email := none, address := none
          created_at := ⟨⟨2024, 1, 1⟩, 0⟩, updated_at := ⟨⟨2024, 1, 1⟩, 0⟩ } = ⟨[]⟩ :=
  ⟨by decide, add_contact_invalid_phone_noop _ _ (by decide)⟩

/-- C3: for every string `s`, `validate_phone_number s` is true if and
only if `s`, in its entirety, matches the pattern `(DDD) DDD-DDDD` where
each `D` is one decimal digit — a full-string match, so no string with
extra leading or trailing characters is accepted. -/
theorem validate_phone_iff_format (s : String) :
    validate_phone_number s = true ↔ phone_format_spec s := by
  constructor
  · intro h
    unfold validate_phone_number at h
    split at h
    · rename_i a b c d e f g hh i j heq
      simp only [Bool.and_eq_true] at h
      exact ⟨a, b, c, d, e, f, g, hh, i, j,
        ⟨h.1.1.1.1.1.1.1.1.1, h.1.1.1.1.1.1.1.1.2, h.1.1.1.1.1.1.1.2, h.1.1.1.1.1.1.2,
          h.1.1.1.1.1.2, h.1.1.1.1.2, h.1.1.1.2, h.1.1.2, h.1.2, h.2⟩,
        by cases s; simp_all⟩
    · exact absurd h (by simp)
  · rintro ⟨a, b, c, d, e, f, g, hh, i, j, hd, rfl⟩
    simp only [validate_phone_number]
    simp [hd.1, hd.2.1, hd.2.2.1, hd.2.2.2.1, hd.2.2.2.2.1, hd.2.2.2.2.2.1,
      hd.2.2.2.2.2.2.1, hd.2.2.2.2.2.2.2.1, hd.2.2.2.2.2.2.2.2.1, hd.2.2.2.2.2.2.2.2.2]

lemma sorted_sort_contacts_last (pb : PhoneBook) :
    List.Sorted lastNameLe ((sort_contacts pb ("last_name")).contacts) := by
  unfold sort_contacts
  rw [if_neg (by decide), if_pos rfl]
  have h := @List.sorted_mergeSort Contact
    (fun c₁ c₂ : Contact => decide (pyLower c₁.last_name ≤ pyLower c₂.last_name))
    (fun a b c h₁ h₂ => by
      simp only [decide_eq_true_eq] at *
      exact le_trans h₁ h₂)
    (fun a b => by
      simpa using le_total (pyLower a.last_name) (pyLower b.last_name))
    pb.contacts
  exact h.imp fun hab => by simpa [lastNameLe] using hab

lemma add_contact_sorted {pb : PhoneBook} (c : Contact)
    (h : List.Sorted lastNameLe pb.contacts) :
    List.Sorted lastNameLe ((add_contact pb c).contacts) := by
  unfold add_contact
  split
  · exact sorted_sort_contacts_last ⟨pb.contacts ++ [c]⟩
  · exact h

lemma foldl_add_contact_sorted :
    ∀ (cs : List Contact) (pb : PhoneBook), List.Sorted lastNameLe pb.contacts →
      List.Sorted lastNameLe ((cs.foldl add_contact pb).contacts)
  | [], _, h => h
  | c :: cs, pb, h => foldl_add_contact_sorted cs (add_contact pb c) (add_contact_sorted c h)

/-- C5: starting from an empty store, after every finite sequence of
`add_contact` calls the contact list is sorted in nondecreasing order by
last name compared case-insensitively (in particular after every sequence
of successful adds). -/
theorem add_sequence_sorted_by_last_name (cs : List Contact) :
    List.Sorted lastNameLe ((cs.foldl add_contact emptyPhoneBook).contacts) :=
  foldl_add_contact_sorted cs emptyPhoneBook (by simp [emptyPhoneBook])

lemma nameMatches_iff (c : Contact) (first last : String) :
    nameMatches c (pyStrip first) (pyStrip last) = true ↔ removalMatch c first last := by
  simp [nameMatches, removalMatch]

/-- C6: `remove_contact_by_name` removes all records (not just the first)
whose first and last names match the arguments case-insensitively after
trimming whitespace on both sides, keeps every non-matching record, and is
idempotent: applying it a second time changes nothing. -/
theorem remove_by_name_removes_all_and_idempotent (pb : PhoneBook)
    (first last : String) :
    (∀ c ∈ (remove_contact_by_name pb first last).contacts,
        ¬ removalMatch c first last) ∧
      (∀ c ∈ pb.contacts, ¬ removalMatch c first last →
        c ∈ (remove_contact_by_name pb first last).contacts) ∧
      remove_contact_by_name (remove_contact_by_name pb first last) first last =
        remove_contact_by_name pb first last := by
  refine ⟨?_, ?_, ?_⟩
  · intro c hc hmatch
    have hmem := List.of_mem_filter hc
    rw [Bool.not_eq_true', ← Bool.not_eq_true] at hmem
    exact hmem ((nameMatches_iff c first last).mpr hmatch)
  · intro c hc hmatch
    refine List.mem_filter_of_mem hc ?_
    simp only [Bool.not_eq_true']
    exact Bool.not_eq_true _ ▸ fun h => hmatch ((nameMatches_iff c first last).mp h)
  · simp [remove_contact_by_name, List.filter_filter]

/-- C6 witness: the theorem applied to a concrete two-contact store and
the names `"Jane"`/`"Doe"`, matched against a stored `" jane "`/`"DOE"`. -/
theorem remove_by_name_witness :
    (∀ c ∈ (remove_contact_by_name
        (⟨[{ first_name := " jane ", last_name := "DOE", phone_number := "(555) 123-4567"
             email := none, address := none
             created_at := ⟨⟨2024, 1, 1⟩, 0⟩, updated_at := ⟨⟨2024, 1, 1⟩, 0⟩ },
           { first_name := "John", last_name := "Smith", phone_number := "(555) 999-8888"
             email := none, address := none
             created_at := ⟨⟨2024, 1, 1⟩, 0⟩, updated_at := ⟨⟨2024, 1, 1⟩, 0⟩ }]⟩ : PhoneBook)
        ("Jane") ("Doe")).contacts, ¬ removalMatch c ("Jane") ("Doe")) ∧
      remove_contact_by_name (remove_contact_by_name
        (⟨[{ first_name := " jane ", last_name := "DOE", phone_number := "(555) 123-4567"
             email := none, address := none
             created_at := ⟨⟨2024, 1, 1⟩, 0⟩, updated_at := ⟨⟨2024, 1, 1⟩, 0⟩ },
           { first_name := "John", last_name := "Smith", phone_number := "(555) 999-8888"
             email := none, address := none
             created_at := ⟨⟨2024, 1, 1⟩, 0⟩, updated_at := ⟨⟨2024, 1, 1⟩, 0⟩ }]⟩ : PhoneBook)
        ("Jane") ("Doe")) ("Jane") ("Doe") =
      remove_contact_by_name
        (⟨[{ first_name := " jane ", last_name := "DOE", phone_number := "(555) 123-4567"
             email := none, address := none
             created_at := ⟨⟨2024, 1, 1⟩, 0⟩, updated_at := ⟨⟨2024, 1, 1⟩, 0⟩ },
           { first_name := "John", last_name := "Smith", phone_number := "(555) 999-8888"
             email := none, address := none
             created_at := ⟨⟨2024, 1, 1⟩, 0⟩, updated_at := ⟨⟨2024, 1, 1⟩, 0⟩ }]⟩ : PhoneBook)
        ("Jane") ("Doe") :=
  ⟨(remove_by_name_removes_all_and_idempotent _ ("Jane") ("Doe")).1,
    (remove_by_name_removes_all_and_idempotent _ ("Jane") ("Doe")).2.2⟩

lemma pyIn_empty (s : String) : pyIn ("") s = true := by
  simp [pyIn]

/-- C7 counterexample: the claim that `search_contact` returns exactly the
records for which the query itself is a case-insensitive substring of the
first name or last name or a substring of the phone number fails at query
`" x "` on a store holding a contact with first name `"x"`: the code strips
the query to `"x"` first and returns the contact, while the claim's
criterion matches nothing. -/
theorem search_differs_from_spec_wording :
    search_contact
        (⟨[{ first_name := "x", last_name := "y", phone_number := "(111) 111-1111"
             email := none, address := none
             created_at := ⟨⟨2024, 1, 1⟩, 0⟩, updated_at := ⟨⟨2024, 1, 1⟩, 0⟩ }]⟩ : PhoneBook)
        (" x ") ≠
      search_spec
        (⟨[{ first_name := "x", last_name := "y", phone_number := "(111) 111-1111"
             email := none, address := none
             created_at := ⟨⟨2024, 1, 1⟩, 0⟩, updated_at := ⟨⟨2024, 1, 1⟩, 0⟩ }]⟩ : PhoneBook)
        (" x ") := by decide

/-- C7 (amended): `search_contact` first trims surrounding whitespace from
the query and lowercases it; it returns exactly the records for which this
normalized query is a substring of the lowercased first name, the
lowercased last name, or the raw phone number, in current store order; in
particular the empty query returns every record in the store. -/
theorem search_matches_normalized_query (pb : PhoneBook) (query : String) :
    (∀ c, c ∈ search_contact pb query ↔ c ∈ pb.contacts ∧
        (pyIn (pyLower (pyStrip query)) (pyLower c.first_name) = true ∨
          pyIn (pyLower (pyStrip query)) (pyLower c.last_name) = true ∨
          pyIn (pyLower (pyStrip query)) c.phone_number = true)) ∧
      List.Sublist (search_contact pb query) pb.contacts ∧
      search_contact pb ("") = pb.contacts := by
  refine ⟨?_, ?_, ?_⟩
  · intro c
    simp [search_contact, List.mem_filter, Bool.or_eq_true, or_assoc]
  · exact List.filter_sublist _
  · show pb.contacts.filter _ = pb.contacts
    refine List.filter_eq_self.mpr fun c _ => ?_
    simp [pyIn_empty, pyStrip, pyStripList, pyLower]

/-- C8: for every store state, if both bounds parse as `YYYY-MM-DD` dates
then `filter_by_date` returns exactly the records whose `created_at` date
(time of day truncated) lies inclusively between them, with no error
reported; if either bound is malformed it returns an empty list with the
error reported (the caught `ValueError`), and the store is never modified
(the embedding is a pure function of the store). -/
theorem filter_by_date_inclusive_or_error (pb : PhoneBook)
    (start_date end_date : String) :
    (∀ s e, parseDate start_date = some s → parseDate end_date = some e →
        filter_by_date pb start_date end_date =
          (pb.contacts.filter fun c =>
            Date.le s c.created_at.date && Date.le c.created_at.date e, false)) ∧
      ((parseDate start_date = none ∨ parseDate end_date = none) →
        filter_by_date pb start_date end_date = ([], true)) := by
  constructor
  · intro s e hs he
    simp [filter_by_date, hs, he]
  · intro h
    unfold filter_by_date
    cases hx : parseDate start_date <;> cases hy : parseDate end_date <;> simp_all

/-- C8 witness: concrete evaluations — a January 2024 record is inside the
range `["2024-01-01", "2024-01-31"]`, and the malformed bound
`"2024-13-40"` yields an empty result with the error reported. -/
theorem filter_by_date_witness :
    filter_by_date
        (⟨[{ first_name := "A", last_name := "B", phone_number := "(123) 456-7890"
             email := none, address := none
             created_at := ⟨⟨2024, 1, 15⟩, 0⟩, updated_at := ⟨⟨2024, 1, 15⟩, 0⟩ }]⟩ : PhoneBook)
        ("2024-01-01") ("2024-01-31") =
      ([{ first_name := "A", last_name := "B", phone_number := "(123) 456-7890"
          email := none, address := none
          created_at := ⟨⟨2024, 1, 15⟩, 0⟩, updated_at := ⟨⟨2024, 1, 15⟩, 0⟩ }], false) ∧
      filter_by_date
        (⟨[{ first_name := "A", last_name := "B", phone_number := "(123) 456-7890"
             email := none, address := none
             created_at := ⟨⟨2024, 1, 15⟩, 0⟩, updated_at := ⟨⟨2024, 1, 15⟩, 0⟩ }]⟩ : PhoneBook)
        ("2024-13-40") ("2024-01-31") = ([], true) := by
  constructor
  · have h := (filter_by_date_inclusive_or_error
        (⟨[{ first_name := "A", last_name := "B", phone_number := "(123) 456-7890"
             email := none, address := none
             created_at := ⟨⟨2024, 1, 15⟩, 0⟩, updated_at := ⟨⟨2024, 1, 15⟩, 0⟩ }]⟩ : PhoneBook)
        ("2024-01-01") ("2024-01-31")).1
      ⟨2024, 1, 1⟩ ⟨2024, 1, 31⟩ (by decide) (by decide)
    rw [h]
    decide
  · exact (filter_by_date_inclusive_or_error
        (⟨[{ first_name := "A", last_name := "B", phone_number := "(123) 456-7890"
             email := none, address := none
             created_at := ⟨⟨2024, 1, 15⟩, 0⟩, updated_at := ⟨⟨2024, 1, 15⟩, 0⟩ }]⟩ : PhoneBook)
        ("2024-13-40") ("2024-01-31")).2
      (Or.inl (by decide))

/-- C9: for every record and every `update_contact` call, each of the five
fields that is supplied and non-empty overwrites the corresponding
attribute, each field that is absent (`none`) or empty (`some ""`) leaves
its attribute unchanged, and `updated_at` is set to the current time on
every call regardless of whether any field changed; `created_at` is
untouched. -/
theorem update_contact_field_semantics (c : Contact)
    (first_name last_name phone_number email address : Option String)
    (now : DateTime) :
    (∀ s, first_name = some s → s ≠ "" →
        (c.update_contact first_name last_name phone_number email address now).first_name = s) ∧
      (first_name = none ∨ first_name = some "" →
        (c.update_contact first_name last_name phone_number email address now).first_name =
          c.first_name) ∧
      (∀ s, last_name = some s → s ≠ "" →
        (c.update_contact first_name last_name phone_number email address now).last_name = s) ∧
      (last_name = none ∨ last_name = some "" →
        (c.update_contact first_name last_name phone_number email address now).last_name =
          c.last_name) ∧
      (∀ s, phone_number = some s → s ≠ "" →
        (c.update_contact first_name last_name phone_number email address now).phone_number = s) ∧
      (phone_number = none ∨ phone_number = some "" →
        (c.update_contact first_name last_name phone_number email address now).phone_number =
          c.phone_number) ∧
      (∀ s, email = some s → s ≠ "" →
        (c.update_contact first_name last_name phone_number email address now).email = some s) ∧
      (email = none ∨ email = some "" →
        (c.update_contact first_name last_name phone_number email address now).email =
          c.email) ∧
      (∀ s, address = some s → s ≠ "" →
        (c.update_contact first_name last_name phone_number email address now).address = some s) ∧
      (address = none ∨ address = some "" →
        (c.update_contact first_name last_name phone_number email address now).address =
          c.address) ∧
      (c.update_contact first_name last_name phone_number email address now).updated_at = now ∧
      (c.update_contact first_name last_name phone_number email address now).created_at =
        c.created_at := by
  refine ⟨?_, ?_, ?_, ?_, ?_, ?_, ?_, ?_, ?_, ?_, rfl, rfl⟩ <;>
    first
    | (intro s hs hne; subst hs; simp [Contact.update_contact, truthyOpt, hne])
    | (rintro (rfl | rfl) <;> simp [Contact.update_contact, truthyOpt])

/-- C9 witness: a concrete update in which a supplied first name
overwrites, an absent last name and an empty phone number leave their
attributes unchanged, an absent email is kept, a supplied address
overwrites, and `updated_at` becomes the call time. -/
theorem update_contact_witness :
    (({ first_name := "Old", last_name := "Name", phone_number := "(000) 000-0000"
        email := some "old@x", address := none
        created_at := ⟨⟨2024, 1, 1⟩, 0⟩,
        updated_at := ⟨⟨2024, 1, 1⟩, 0⟩ } : Contact).update_contact
          (some "New") none (some "") none (some "Addr") ⟨⟨2024, 2, 2⟩, 7⟩).first_name =
        "New" ∧
      (({ first_name := "Old", last_name := "Name", phone_number := "(000) 000-0000"
          email := some "old@x", address := none
          created_at := ⟨⟨2024, 1, 1⟩, 0⟩,
          updated_at := ⟨⟨2024, 1, 1⟩, 0⟩ } : Contact).update_contact
          (some "New") none (some "") none (some "Addr") ⟨⟨2024, 2, 2⟩, 7⟩).last_name =
        "Name" ∧
      (({ first_name := "Old", last_name := "Name", phone_number := "(000) 000-0000"
          email := some "old@x", address := none
          created_at := ⟨⟨2024, 1, 1⟩, 0⟩,
          updated_at := ⟨⟨2024, 1, 1⟩, 0⟩ } : Contact).update_contact
          (some "New") none (some "") none (some "Addr") ⟨⟨2024, 2, 2⟩, 7⟩).phone_number =
        "(000) 000-0000" ∧
      (({ first_name := "Old", last_name := "Name", phone_number := "(000) 000-0000"
          email := some "old@x", address := none
          created_at := ⟨⟨2024, 1, 1⟩, 0⟩,
          updated_at := ⟨⟨2024, 1, 1⟩, 0⟩ } : Contact).update_contact
          (some "New") none (some "") none (some "Addr") ⟨⟨2024, 2, 2⟩, 7⟩).email =
        some "old@x" ∧
      (({ first_name := "Old", last_name := "Name", phone_number := "(000) 000-0000"
          email := some "old@x", address := none
          created_at := ⟨⟨2024, 1, 1⟩, 0⟩,
          updated_at := ⟨⟨2024, 1, 1⟩, 0⟩ } : Contact).update_contact
          (some "New") none (some "") none (some "Addr") ⟨⟨2024, 2, 2⟩, 7⟩).address =
        some "Addr" ∧
      (({ first_name := "Old", last_name := "Name", phone_number := "(000) 000-0000"
          email := some "old@x", address := none
          created_at := ⟨⟨2024, 1, 1⟩, 0⟩,
          updated_at := ⟨⟨2024, 1, 1⟩, 0⟩ } : Contact).update_contact
          (some "New") none (some "") none (some "Addr") ⟨⟨2024, 2, 2⟩, 7⟩).updated_at =
        ⟨⟨2024, 2, 2⟩, 7⟩ := by
  have h := update_contact_field_semantics
    { first_name := "Old", last_name := "Name", phone_number := "(000) 000-0000"
      email := some "old@x", address := none
      created_at := ⟨⟨2024, 1, 1⟩, 0⟩, updated_at := ⟨⟨2024, 1, 1⟩, 0⟩ }
    (some "New") none (some "") none (some "Addr") ⟨⟨2024, 2, 2⟩, 7⟩
  exact ⟨h.1 ("New") rfl (by decide), h.2.2.2.1 (Or.inl rfl),
    h.2.2.2.2.2.1 (Or.inr rfl), h.2.2.2.2.2.2.2.1 (Or.inl rfl),
    h.2.2.2.2.2.2.2.2.1 ("Addr") rfl (by decide), h.2.2.2.2.2.2.2.2.2.2.1⟩

lemma import_step_short (now : DateTime) (st : PhoneBook × List String)
    (row : Row) (h : ¬ 3 ≤ row.length) : import_step now st row = st := by
  simp [import_step, h]

lemma batch_import_foldl_filter (now : DateTime) :
    ∀ (rows : List Row) (st : PhoneBook × List String),
      rows.foldl (import_step now) st =
        (rows.filter fun r => 3 ≤ r.length).foldl (import_step now) st := by
  intro rows
  induction rows with
  | nil => intro st; rfl
  | cons r rows ih =>
    intro st
    by_cases h : 3 ≤ r.length
    · rw [List.foldl_cons, List.filter_cons_of_pos (by simpa using h), List.foldl_cons, ih]
    · rw [List.foldl_cons, List.filter_cons_of_neg (by simpa using h),
        import_step_short now st r h, ih]

lemma batch_import_foldl_all_valid (now : DateTime) :
    ∀ (rows : List Row) (st : PhoneBook × List String),
      (∀ r ∈ rows, 3 ≤ r.length → validate_phone_number (r.getD 2 "") = true) →
      (rows.foldl (import_step now) st).2 = st.2 := by
  intro rows
  induction rows with
  | nil => intro st _; rfl
  | cons r rows ih =>
    intro st h
    rw [List.foldl_cons]
    have hrest : ∀ r ∈ rows, 3 ≤ r.length → validate_phone_number (r.getD 2 "") = true :=
      fun r hr => h r (List.mem_cons_of_mem _ hr)
    by_cases hl : 3 ≤ r.length
    · have hv := h r (List.mem_cons_self _ _) hl
      have hstep : import_step now st r = (add_contact st.1 (contactOfRow r now), st.2) := by
        unfold import_step
        rw [if_pos hl, hv]
        simp
      rw [hstep]
      exact ih _ hrest
    · rw [import_step_short now st r hl]
      exact ih _ hrest

/-- C10: `batch_import` silently skips every row with fewer than 3 fields
— importing a row list behaves exactly like importing the sublist of rows
with at least 3 fields, so a short row is neither added to the store nor
collected into the invalid-contacts report — and when no processed row has
an invalid phone number the invalid report is empty and the operation
completes with the success status. -/
theorem batch_import_skips_short_rows (pb : PhoneBook) (rows : List Row)
    (now : DateTime) :
    batch_import pb (some rows) now =
        batch_import pb (some (rows.filter fun r => 3 ≤ r.length)) now ∧
      ((∀ r ∈ rows, 3 ≤ r.length → validate_phone_number (r.getD 2 "") = true) →
        (batch_import pb (some rows) now).invalid = [] ∧
          (batch_import pb (some rows) now).fileFound = true) := by
  constructor
  · simp [batch_import, batch_import_rows, batch_import_foldl_filter now rows (pb, [])]
  · intro h
    constructor
    · simp [batch_import, batch_import_rows,
        batch_import_foldl_all_valid now rows (pb, []) h]
    · simp [batch_import, batch_import_rows]

/-- C10 witness: importing a file with one 1-field row and one valid
3-field row equals importing just the valid row, with an empty invalid
report and the success status. -/
theorem batch_import_witness :
    batch_import (⟨[]⟩ : PhoneBook)
        (some [["OnlyName"], ["A", "B", "(123) 456-7890"]]) ⟨⟨2024, 1, 1⟩, 0⟩ =
        batch_import (⟨[]⟩ : PhoneBook)
          (some [["A", "B", "(123) 456-7890"]]) ⟨⟨2024, 1, 1⟩, 0⟩ ∧
      (batch_import (⟨[]⟩ : PhoneBook)
        (some [["OnlyName"], ["A", "B", "(123) 456-7890"]]) ⟨⟨2024, 1, 1⟩, 0⟩).invalid = [] ∧
      (batch_import (⟨[]⟩ : PhoneBook)
        (some [["OnlyName"], ["A", "B", "(123) 456-7890"]]) ⟨⟨2024, 1, 1⟩, 0⟩).fileFound =
        true := by
  have h := batch_import_skips_short_rows (⟨[]⟩ : PhoneBook)
    [["OnlyName"], ["A", "B", "(123) 456-7890"]] ⟨⟨2024, 1, 1⟩, 0⟩
  have h2 := h.2 (by decide)
  refine ⟨?_, h2.1, h2.2⟩
  rw [h.1]
  rfl

lemma mem_sort_contacts_last {c : Contact} {pb : PhoneBook}
    (h : c ∈ pb.contacts) : c ∈ (sort_contacts pb ("last_name")).contacts := by
  unfold sort_contacts
  rw [if_neg (by decide), if_pos rfl]
  exact List.mem_mergeSort.mpr h

lemma mem_add_contact_of_mem {c : Contact} {pb : PhoneBook} (c' : Contact)
    (h : c ∈ pb.contacts) : c ∈ (add_contact pb c').contacts := by
  unfold add_contact
  split
  · exact mem_sort_contacts_last (List.mem_append_left _ h)
  · exact h

lemma load_from_file_cons (pb : PhoneBook) (row : Row) (rows : List Row)
    (now : DateTime) :
    load_from_file pb (row :: rows) now =
      load_from_file (if 3 ≤ row.length then add_contact pb (contactOfRow row now) else pb)
        rows now := rfl

lemma mem_load_from_file_of_mem {c : Contact} :
    ∀ (rows : List Row) (pb : PhoneBook) (now : DateTime), c ∈ pb.contacts →
      c ∈ (load_from_file pb rows now).contacts
  | [], _, _, h => h
  | row :: rows, pb, now, h => by
    rw [load_from_file_cons]
    apply mem_load_from_file_of_mem rows
    split
    · exact mem_add_contact_of_mem _ h
    · exact h

lemma mem_add_contact_self {c : Contact} (pb : PhoneBook)
    (h : validate_phone_number c.phone_number = true) :
    c ∈ (add_contact pb c).contacts := by
  unfold add_contact
  rw [if_pos h]
  exact mem_sort_contacts_last (List.mem_append_right _ (List.mem_singleton.mpr rfl))

lemma load_from_file_mem_of_row :
    ∀ (rows : List Row) (pb : PhoneBook) (now : DateTime) (row : Row),
      row ∈ rows → 3 ≤ row.length →
      validate_phone_number (row.getD 2 "") = true →
      contactOfRow row now ∈ (load_from_file pb rows now).contacts := by
  intro rows
  induction rows with
  | nil => intro _ _ _ h; exact absurd h (List.not_mem_nil _)
  | cons r rows ih =>
    intro pb now row hmem hlen hval
    rw [load_from_file_cons]
    rcases List.mem_cons.mp hmem with rfl | hmem'
    · rw [if_pos hlen]
      exact mem_load_from_file_of_mem rows _ now (mem_add_contact_self pb hval)
    · exact ih _ now row hmem' hlen hval

/-- C1 (amended): for every store state, `save_to_file` followed by
`load_from_file` into a fresh empty store reproduces, for each saved
record whose phone number passes validation, a loaded record with the same
first name, last name and phone number, and whose email and address equal
the saved values with an absent (`none`) optional field reloaded as
`some ""` (timestamps excluded). -/
theorem save_load_reproduces_valid_records (pb : PhoneBook) (now : DateTime)
    (c : Contact) (hc : c ∈ pb.contacts)
    (hv : validate_phone_number c.phone_number = true) :
    ∃ c' ∈ (load_from_file emptyPhoneBook (save_to_file pb) now).contacts,
      c'.first_name = c.first_name ∧ c'.last_name = c.last_name ∧
        c'.phone_number = c.phone_number ∧
        c'.email = some (optField c.email) ∧
        c'.address = some (optField c.address) := by
  have hmem : [c.first_name, c.last_name, c.phone_number, optField c.email,
      optField c.address] ∈ save_to_file pb := List.mem_map_of_mem _ hc
  exact ⟨contactOfRow
    [c.first_name, c.last_name, c.phone_number, optField c.email, optField c.address] now,
    load_from_file_mem_of_row (save_to_file pb) emptyPhoneBook now _ hmem (by simp)
      hv, rfl, rfl, rfl, rfl, rfl⟩

unseal List.merge List.mergeSort in
/-- C1 counterexample: the round-trip claim as stated fails on a store
holding a contact with `email = none`, `address = none` (reloaded with
`some ""` in both fields, not `none`) and a contact whose phone number is
invalid (dropped entirely by the load-time re-validation): neither saved
record has a loaded record agreeing on all five fields. -/
theorem save_load_not_field_exact :
    ¬ (∀ c ∈ (⟨[{ first_name := "A", last_name := "B", phone_number := "(123) 456-7890"
                  email := none, address := none
                  created_at := ⟨⟨2024, 1, 1⟩, 0⟩, updated_at := ⟨⟨2024, 1, 1⟩, 0⟩ },
                { first_name := "X", last_name := "Y", phone_number := "12345"
                  email := some "e@x", address := some "Addr"
                  created_at := ⟨⟨2024, 1, 1⟩, 0⟩,
                  updated_at := ⟨⟨2024, 1, 1⟩, 0⟩ }]⟩ : PhoneBook).contacts,
        ∃ c' ∈ (load_from_file emptyPhoneBook
            (save_to_file
              (⟨[{ first_name := "A", last_name := "B", phone_number := "(123) 456-7890"
                   email := none, address := none
                   created_at := ⟨⟨2024, 1, 1⟩, 0⟩, updated_at := ⟨⟨2024, 1, 1⟩, 0⟩ },
                 { first_name := "X", last_name := "Y", phone_number := "12345"
                   email := some "e@x", address := some "Addr"
                   created_at := ⟨⟨2024, 1, 1⟩, 0⟩,
                   updated_at := ⟨⟨2024, 1, 1⟩, 0⟩ }]⟩ : PhoneBook))
            ⟨⟨2024, 6, 1⟩, 3⟩).contacts,
          c'.first_name = c.first_name ∧ c'.last_name = c.last_name ∧
            c'.phone_number = c.phone_number ∧ c'.email = c.email ∧
            c'.address = c.address) := by decide

/-- C1 witness: the amended round-trip applied to a concrete one-contact
store whose address is `none` (reloaded as `some ""`). -/
theorem save_load_witness :
    ∃ c' ∈ (load_from_file emptyPhoneBook
        (save_to_file
          (⟨[{ first_name := "A", last_name := "B", phone_number := "(123) 456-7890"
               email := some "e@x", address := none
               created_at := ⟨⟨2024, 1, 1⟩, 0⟩,
               updated_at := ⟨⟨2024, 1, 1⟩, 0⟩ }]⟩ : PhoneBook))
        ⟨⟨2024, 6, 1⟩, 3⟩).contacts,
      c'.first_name = "A" ∧ c'.last_name = "B" ∧
        c'.phone_number = "(123) 456-7890" ∧
        c'.email = some "e@x" ∧ c'.address = some "" :=
  save_load_reproduces_valid_records _ ⟨⟨2024, 6, 1⟩, 3⟩
    { first_name := "A", last_name := "B", phone_number := "(123) 456-7890"
      email := some "e@x", address := none
      created_at := ⟨⟨2024, 1, 1⟩, 0⟩, updated_at := ⟨⟨2024, 1, 1⟩, 0⟩ }
    (List.mem_singleton.mpr rfl) (by decide)

end Phonebook
